import Mathlib

/-!
# QRScanner screen: scan-to-history workflow

A shallow embedding of `Frontend/app/QRScanner.jsx`.

The component keeps two pieces of React state (`scannedData`, `isUploading`)
and reads and writes one AsyncStorage key (`"qrHistory"`).  Every handler of
the component is embedded as a function on `World`, taking the outcomes of the
platform promises it awaits (permission request, position request, storage
read, storage write, image picker) as explicit inputs.  Every call that leaves
the component (state setters, console, alerts, platform requests) is recorded,
in program order, in `World.trace`.

Modelling conventions:
* the payload of a decode event and the timestamp are strings;
* the coordinate numbers are only ever copied by the program, never computed
  with, so their type is a parameter `ν`;
* the value under `"qrHistory"` is `none` when the key is absent and
  `some log` when it holds a serialised array of entries; serialisation is
  taken to round-trip;
* a rejected `setItem` leaves the stored value as it was;
* one handler runs from its first to its last statement with no other handler
  in between, and the component has re-rendered before the next handler runs,
  so every handler reads the current state;
* the camera-permission gate of lines 39-52 is outside the model: the handlers
  and the ternary of line 124 exist only in a render that has passed it.
-/

namespace QRScanner

/-! ## Data model -/

/-- The `{ latitude, longitude }` object built at lines 84-87. -/
structure Coords (ν : Type) where
  latitude : ν
  longitude : ν
deriving DecidableEq, Repr

/-- The object `Location.getCurrentPositionAsync` resolves to; only `coords`
is read. -/
structure LocationObject (ν : Type) where
  coords : Coords ν
deriving DecidableEq, Repr

/-- The record `{ data, timestamp, location }` of line 94; `location` is a
coordinate pair or `null`. -/
structure HistoryEntry (ν : Type) where
  data : String
  timestamp : String
  location : Option (Coords ν)
deriving DecidableEq, Repr

/-- A thrown JavaScript error, identified by its message. -/
structure JsError where
  message : String
deriving DecidableEq, Repr

/-- What a button of an alert does when pressed. -/
inductive Action where
  | routerBack
deriving DecidableEq, Repr

/-- One button of `Alert.alert`. -/
structure AlertButton where
  text : String
  onPress : Action
deriving DecidableEq, Repr

/-- Every call that leaves the component, in program order. -/
inductive Effect (ν : Type) where
  | setScannedData (value : Option String)
  | setIsUploading (value : Bool)
  | requestForegroundPermissions
  | getCurrentPosition
  | getItem (key : String)
  | setItem (key : String) (value : List (HistoryEntry ν))
  | consoleWarn (message : String)
  | consoleError (message : String) (error : JsError)
  | alert (title : String) (message : String) (buttons : List AlertButton)
  | launchImageLibrary
deriving DecidableEq, Repr

/-- The component state (lines 20-21), the value stored under `"qrHistory"`,
and the record of the calls made so far. -/
structure World (ν : Type) where
  scannedData : Option String
  isUploading : Bool
  qrHistory : Option (List (HistoryEntry ν))
  trace : List (Effect ν)
deriving DecidableEq, Repr

/-- The outcomes of the promises awaited by one run of `saveToHistory`, and
the clock reading of line 76.  `getItemError` and `setItemError` are `none`
when the storage call resolves. -/
structure SaveEnv (ν : Type) where
  now : String
  requestForegroundPermissionsAsync : Except JsError String
  getCurrentPositionAsync : Except JsError (LocationObject ν)
  getItemError : Option JsError
  setItemError : Option JsError

/-- What `ImagePicker.launchImageLibraryAsync` resolves to; only `canceled`
is read. -/
structure ImagePickerResult where
  canceled : Bool
  assets : List String
deriving DecidableEq, Repr

/-- The two branches of the ternary at lines 124-162. -/
inductive View where
  | scanner
  | result
deriving DecidableEq, Repr

variable {ν : Type}

/-! ## Helpers for JavaScript semantics -/

/-- JavaScript truthiness of a value that is `null` or a string. -/
def truthy : Option String → Bool
  | none => false
  | some s => s != ""

/-- The history array denoted by a stored value:
`history ? JSON.parse(history) : []` (line 98). -/
def historyArray (stored : Option (List (HistoryEntry ν))) : List (HistoryEntry ν) :=
  match stored with
  | some log => log
  | none => []

/-- Record one effect. -/
def emit (e : Effect ν) (w : World ν) : World ν :=
  { w with trace := w.trace ++ [e] }

/-- The state setter `setScannedData`. -/
def setScannedData (value : Option String) (w : World ν) : World ν :=
  emit (.setScannedData value) { w with scannedData := value }

/-- The state setter `setIsUploading`. -/
def setIsUploading (value : Bool) (w : World ν) : World ν :=
  emit (.setIsUploading value) { w with isUploading := value }

/-! ## The handlers -/

/-- The AppState `"change"` listener, lines 27-31. -/
def appStateListener (nextAppState : String) (w : World ν) : World ν :=
  if nextAppState = "active" then setScannedData none w else w

/-- Lines 54-57. -/
def handleBarcodeScanned (data : String) (w : World ν) : World ν :=
  if some data = w.scannedData then w else setScannedData (some data) w

/-- The `try` block of `saveToHistory`, lines 80-100: the error thrown, if
any, and the world at that point. -/
def saveToHistoryTry (env : SaveEnv ν) (data timestamp : String) (w : World ν) :
    Except JsError Unit × World ν :=
  let w := emit .requestForegroundPermissions w
  match env.requestForegroundPermissionsAsync with
  | .error e => (.error e, w)
  | .ok status =>
    if status = "granted" then
      let w := emit .getCurrentPosition w
      match env.getCurrentPositionAsync with
      | .error e => (.error e, w)
      | .ok currentLocation =>
        let location : Option (Coords ν) :=
          some { latitude := currentLocation.coords.latitude,
                 longitude := currentLocation.coords.longitude }
        let newEntry : HistoryEntry ν :=
          { data := data, timestamp := timestamp, location := location }
        let w := emit (.getItem "qrHistory") w
        match env.getItemError with
        | some e => (.error e, w)
        | none =>
          let history := w.qrHistory
          let pushed := historyArray history ++ [newEntry]
          let w := emit (.setItem "qrHistory" pushed) w
          match env.setItemError with
          | some e => (.error e, w)
          | none => (.ok (), { w with qrHistory := some pushed })
    else
      let w := emit (.consoleWarn "Location permission not granted") w
      (.error ⟨"Location permission not granted"⟩, w)

/-- Lines 75-104: the `try` block followed by the `catch` of lines 101-103. -/
def saveToHistory (env : SaveEnv ν) (data : String) (w : World ν) :
    Except JsError Unit × World ν :=
  let timestamp := env.now
  match saveToHistoryTry env data timestamp w with
  | (.ok (), w) => (.ok (), w)
  | (.error error, w) => (.ok (), emit (.consoleError "Error saving to history:" error) w)

/-- Lines 59-73. -/
def uploadData (env : SaveEnv ν) (w : World ν) : World ν :=
  match w.scannedData with
  | none => w
  | some scannedData =>
    if !truthy (some scannedData) then w
    else
      let w := setIsUploading true w
      let w :=
        match saveToHistory env scannedData w with
        | (.ok (), w) =>
          emit (.alert "Success" "Entry added successfully!" [⟨"OK", .routerBack⟩]) w
        | (.error _, w) =>
          emit (.alert "Error" "Failed to add Entry!" []) w
      setIsUploading false w

/-- Lines 106-120; `picked` is `none` when the picker promise rejects. -/
def pickImageFromGallery (picked : Option ImagePickerResult) (w : World ν) : World ν :=
  let w := emit .launchImageLibrary w
  match picked with
  | none => w
  | some result =>
    if !result.canceled then
      emit (.alert "Feature not implemented"
        "Decoding QR from gallery is not yet implemented." []) w
    else w

/-- The `onPress` of the "Scan Again" button, line 157. -/
def scanAgain (w : World ν) : World ν :=
  setScannedData none w

/-- The render condition of line 124: `!scannedData ? scanner : result`. -/
def render (w : World ν) : View :=
  if !truthy w.scannedData then .scanner else .result

/-! ## The screen as a transition system -/

/-- One operation of the screen together with the outcomes it meets. -/
inductive Op (ν : Type) where
  | uploadData (env : SaveEnv ν)
  | handleBarcodeScanned (data : String)
  | appStateChange (nextAppState : String)
  | scanAgain
  | pickImageFromGallery (picked : Option ImagePickerResult)

/-- Run one operation. -/
def step (w : World ν) : Op ν → World ν
  | .uploadData env => uploadData env w
  | .handleBarcodeScanned data => handleBarcodeScanned data w
  | .appStateChange next => appStateListener next w
  | .scanAgain => scanAgain w
  | .pickImageFromGallery picked => pickImageFromGallery picked w

/-- The alerts shown during a run, in order: the alert effects of a trace. -/
def alertsOf : List (Effect ν) → List (String × String)
  | [] => []
  | .alert title message _ :: rest => (title, message) :: alertsOf rest
  | _ :: rest => alertsOf rest

/-- The success notification of line 65. -/
def successAlert : String × String := ("Success", "Entry added successfully!")

/-- The error notification of line 69. -/
def errorAlert : String × String := ("Error", "Failed to add Entry!")

/-- The notification of lines 115-118. -/
def notImplementedAlert : String × String :=
  ("Feature not implemented", "Decoding QR from gallery is not yet implemented.")

/-- The effects performed between world `w` and a later world `w'`. -/
def effectsSince (w w' : World ν) : List (Effect ν) :=
  w'.trace.drop w.trace.length

/-- Deliver a sequence of decode events, one after the other. -/
def runEvents (w : World ν) (events : List String) : World ν :=
  events.foldl (fun acc data => handleBarcodeScanned data acc) w

/-! ## Concrete inputs -/

/-- A fresh screen: nothing scanned, no save in flight, key absent. -/
def freshWorld : World Int :=
  { scannedData := none, isUploading := false, qrHistory := none, trace := [] }

/-- The screen after `"ABC123"` was scanned, before the save is confirmed. -/
def scannedWorld : World Int :=
  { scannedData := some "ABC123", isUploading := false, qrHistory := none, trace := [] }

/-- A screen with `"ABC123"` pending and one entry already stored. -/
def storedWorld : World Int :=
  { scannedData := some "ABC123", isUploading := false,
    qrHistory := some [{ data := "OLD", timestamp := "12/31/2024, 9:00:00 PM", location := none }],
    trace := [] }

/-- Permission refused; storage works. -/
def deniedEnv : SaveEnv Int :=
  { now := "1/1/2025, 10:00:00 AM",
    requestForegroundPermissionsAsync := .ok "denied",
    getCurrentPositionAsync := .ok ⟨⟨48, 2⟩⟩,
    getItemError := none,
    setItemError := none }

/-- Permission granted, position acquired, storage works. -/
def happyEnv : SaveEnv Int :=
  { now := "1/1/2025, 10:00:00 AM",
    requestForegroundPermissionsAsync := .ok "granted",
    getCurrentPositionAsync := .ok ⟨⟨48, 2⟩⟩,
    getItemError := none,
    setItemError := none }

/-- Permission granted, position acquired, the storage write rejects. -/
def writeFailEnv : SaveEnv Int :=
  { now := "1/1/2025, 10:00:00 AM",
    requestForegroundPermissionsAsync := .ok "granted",
    getCurrentPositionAsync := .ok ⟨⟨48, 2⟩⟩,
    getItemError := none,
    setItemError := some ⟨"disk full"⟩ }

/-! ## Basic facts -/

theorem alertsOf_append (xs ys : List (Effect ν)) :
    alertsOf (xs ++ ys) = alertsOf xs ++ alertsOf ys := by
  induction xs with
  | nil => rfl
  | cons x xs ih => cases x <;> simp [alertsOf, ih]

theorem effectsSince_of_trace (w w' : World ν) (added : List (Effect ν))
    (h : w'.trace = w.trace ++ added) : effectsSince w w' = added := by
  simp [effectsSince, h]

@[simp]
theorem emit_trace (e : Effect ν) (w : World ν) :
    (emit e w).trace = w.trace ++ [e] := rfl

@[simp]
theorem emit_scannedData (e : Effect ν) (w : World ν) :
    (emit e w).scannedData = w.scannedData := rfl

@[simp]
theorem emit_isUploading (e : Effect ν) (w : World ν) :
    (emit e w).isUploading = w.isUploading := rfl

@[simp]
theorem emit_qrHistory (e : Effect ν) (w : World ν) :
    (emit e w).qrHistory = w.qrHistory := rfl

@[simp]
theorem setIsUploading_trace (b : Bool) (w : World ν) :
    (setIsUploading b w).trace = w.trace ++ [.setIsUploading b] := rfl

@[simp]
theorem setIsUploading_scannedData (b : Bool) (w : World ν) :
    (setIsUploading b w).scannedData = w.scannedData := rfl

@[simp]
theorem setIsUploading_isUploading (b : Bool) (w : World ν) :
    (setIsUploading b w).isUploading = b := rfl

@[simp]
theorem setIsUploading_qrHistory (b : Bool) (w : World ν) :
    (setIsUploading b w).qrHistory = w.qrHistory := rfl

@[simp]
theorem setScannedData_trace (v : Option String) (w : World ν) :
    (setScannedData v w).trace = w.trace ++ [.setScannedData v] := rfl

@[simp]
theorem setScannedData_scannedData (v : Option String) (w : World ν) :
    (setScannedData v w).scannedData = v := rfl

@[simp]
theorem setScannedData_isUploading (v : Option String) (w : World ν) :
    (setScannedData v w).isUploading = w.isUploading := rfl

@[simp]
theorem setScannedData_qrHistory (v : Option String) (w : World ν) :
    (setScannedData v w).qrHistory = w.qrHistory := rfl

theorem truthy_some (s : String) : truthy (some s) = true ↔ s ≠ "" := by
  simp [truthy]

/-- What the `try` block does, by the branch taken: it touches neither piece
of component state, shows no alert, and either leaves the stored value alone
and throws, or writes the old array with the new entry pushed and returns. -/
theorem saveToHistoryTry_cases (env : SaveEnv ν) (data timestamp : String) (w : World ν) :
    ∃ added : List (Effect ν),
      (saveToHistoryTry env data timestamp w).2.trace = w.trace ++ added ∧
      alertsOf added = [] ∧
      (∀ b, Effect.setIsUploading b ∉ added) ∧
      (∀ v, Effect.setScannedData v ∉ added) ∧
      (saveToHistoryTry env data timestamp w).2.scannedData = w.scannedData ∧
      (saveToHistoryTry env data timestamp w).2.isUploading = w.isUploading ∧
      (((∃ e, (saveToHistoryTry env data timestamp w).1 = .error e) ∧
          (saveToHistoryTry env data timestamp w).2.qrHistory = w.qrHistory) ∨
        ((saveToHistoryTry env data timestamp w).1 = .ok () ∧
          ∃ c : Coords ν, (saveToHistoryTry env data timestamp w).2.qrHistory =
            some (historyArray w.qrHistory ++
              [{ data := data, timestamp := timestamp, location := some c }]))) := by
  unfold saveToHistoryTry
  rcases hp : env.requestForegroundPermissionsAsync with e | status
  · exact ⟨[.requestForegroundPermissions], by simp [emit, alertsOf]⟩
  · by_cases hs : status = "granted"
    · rcases hpos : env.getCurrentPositionAsync with e | loc
      · exact ⟨[.requestForegroundPermissions, .getCurrentPosition],
          by simp [hs, emit, alertsOf]⟩
      · rcases hg : env.getItemError with _ | e
        · rcases hset : env.setItemError with _ | e
          · exact ⟨[.requestForegroundPermissions, .getCurrentPosition, .getItem "qrHistory",
              .setItem "qrHistory" (historyArray w.qrHistory ++
                [{ data := data, timestamp := timestamp, location := some loc.coords }])],
              by simp [hs, emit, alertsOf]⟩
          · exact ⟨[.requestForegroundPermissions, .getCurrentPosition, .getItem "qrHistory",
              .setItem "qrHistory" (historyArray w.qrHistory ++
                [{ data := data, timestamp := timestamp, location := some loc.coords }])],
              by simp [hs, emit, alertsOf]⟩
        · exact ⟨[.requestForegroundPermissions, .getCurrentPosition, .getItem "qrHistory"],
            by simp [hs, emit, alertsOf]⟩
    · exact ⟨[.requestForegroundPermissions, .consoleWarn "Location permission not granted"],
        by simp [hs, emit, alertsOf]⟩

theorem saveToHistory_of_ok (env : SaveEnv ν) (data : String) (w : World ν)
    (h : (saveToHistoryTry env data env.now w).1 = .ok ()) :
    saveToHistory env data w = (.ok (), (saveToHistoryTry env data env.now w).2) := by
  simp only [saveToHistory]
  generalize saveToHistoryTry env data env.now w = r at h
  obtain ⟨r, w1⟩ := r
  cases r <;> simp_all

theorem saveToHistory_of_error (env : SaveEnv ν) (data : String) (w : World ν) (e : JsError)
    (h : (saveToHistoryTry env data env.now w).1 = .error e) :
    saveToHistory env data w =
      (.ok (), emit (.consoleError "Error saving to history:" e)
        (saveToHistoryTry env data env.now w).2) := by
  simp only [saveToHistory]
  generalize saveToHistoryTry env data env.now w = r at h
  obtain ⟨r, w1⟩ := r
  cases r <;> simp_all

/-- The `catch` of lines 101-103 absorbs every error: `saveToHistory` always
returns normally. -/
theorem saveToHistory_fst (env : SaveEnv ν) (data : String) (w : World ν) :
    (saveToHistory env data w).1 = .ok () := by
  rcases h : (saveToHistoryTry env data env.now w).1 with e | u
  · rw [saveToHistory_of_error env data w e h]
  · rw [saveToHistory_of_ok env data w h]

/-- What `saveToHistory` does as a whole. -/
theorem saveToHistory_cases (env : SaveEnv ν) (data : String) (w : World ν) :
    ∃ added : List (Effect ν),
      (saveToHistory env data w).2.trace = w.trace ++ added ∧
      alertsOf added = [] ∧
      (∀ b, Effect.setIsUploading b ∉ added) ∧
      (∀ v, Effect.setScannedData v ∉ added) ∧
      (saveToHistory env data w).2.scannedData = w.scannedData ∧
      (saveToHistory env data w).2.isUploading = w.isUploading ∧
      ((saveToHistory env data w).2.qrHistory = w.qrHistory ∨
        ∃ c : Coords ν, (saveToHistory env data w).2.qrHistory =
          some (historyArray w.qrHistory ++
            [{ data := data, timestamp := env.now, location := some c }])) := by
  obtain ⟨added, ht, ha, hu, hsd, hd, hi, hq⟩ := saveToHistoryTry_cases env data env.now w
  rcases hq with ⟨⟨e, he⟩, hq⟩ | ⟨hok, hq⟩
  · rw [saveToHistory_of_error env data w e he]
    refine ⟨added ++ [.consoleError "Error saving to history:" e], ?_⟩
    simp [emit, ht, alertsOf_append, ha, alertsOf, hu, hsd, hd, hi, hq]
  · rw [saveToHistory_of_ok env data w hok]
    exact ⟨added, ht, ha, hu, hsd, hd, hi, Or.inr hq⟩

/-- The shape of a run of `uploadData` on a truthy `scannedData`. -/
theorem uploadData_truthy (env : SaveEnv ν) (w : World ν) (d : String)
    (hd : w.scannedData = some d) (hne : d ≠ "") :
    uploadData env w =
      setIsUploading false
        (emit (.alert "Success" "Entry added successfully!" [⟨"OK", .routerBack⟩])
          (saveToHistory env d (setIsUploading true w)).2) := by
  have h1 := saveToHistory_fst env d (setIsUploading true w)
  unfold uploadData
  rw [hd]
  simp only [truthy, bne_iff_ne, ne_eq, hne, not_false_eq_true, decide_True, Bool.not_true,
    Bool.false_eq_true, ↓reduceIte]
  generalize saveToHistory env d (setIsUploading true w) = r at h1
  obtain ⟨r, w1⟩ := r
  cases r <;> simp_all

/-- A run of `uploadData` on a falsy `scannedData` returns at line 60. -/
theorem uploadData_falsy (env : SaveEnv ν) (w : World ν) (h : truthy w.scannedData = false) :
    uploadData env w = w := by
  unfold uploadData
  rcases hd : w.scannedData with _ | d
  · rfl
  · rw [hd] at h
    simp [h]

/-- Everything a run of `uploadData` on a truthy `scannedData` does. -/
theorem uploadData_run (env : SaveEnv ν) (w : World ν) (d : String)
    (hd : w.scannedData = some d) (hne : d ≠ "") :
    ∃ mid : List (Effect ν),
      (uploadData env w).trace =
        w.trace ++ (.setIsUploading true ::
          (mid ++ [.alert "Success" "Entry added successfully!" [⟨"OK", .routerBack⟩],
            .setIsUploading false])) ∧
      alertsOf mid = [] ∧
      (∀ b, Effect.setIsUploading b ∉ mid) ∧
      (∀ v, Effect.setScannedData v ∉ mid) ∧
      (uploadData env w).scannedData = w.scannedData ∧
      (uploadData env w).isUploading = false ∧
      (uploadData env w).qrHistory = (saveToHistory env d (setIsUploading true w)).2.qrHistory := by
  obtain ⟨mid, ht, ha, hu, hsd, hs, _, _⟩ := saveToHistory_cases env d (setIsUploading true w)
  rw [uploadData_truthy env w d hd hne]
  refine ⟨mid, ?_, ha, hu, hsd, ?_, ?_, ?_⟩
  · simp [ht]
  · simpa using hs
  · simp
  · simp

/-- The stored value after `saveToHistory` is the one the `try` block left. -/
theorem saveToHistory_qrHistory (env : SaveEnv ν) (data : String) (w : World ν) :
    (saveToHistory env data w).2.qrHistory =
      (saveToHistoryTry env data env.now w).2.qrHistory := by
  rcases h : (saveToHistoryTry env data env.now w).1 with e | u
  · rw [saveToHistory_of_error env data w e h]
    rfl
  · rw [saveToHistory_of_ok env data w h]

/-- The stored value after a run of `uploadData` is unchanged or is the old
array with one entry pushed. -/
theorem uploadData_qrHistory (env : SaveEnv ν) (w : World ν) :
    (uploadData env w).qrHistory = w.qrHistory ∨
      ∃ e : HistoryEntry ν,
        (uploadData env w).qrHistory = some (historyArray w.qrHistory ++ [e]) := by
  rcases hd : w.scannedData with _ | d
  · left
    rw [uploadData_falsy env w (by simp [hd, truthy])]
  · by_cases hne : d = ""
    · left
      rw [uploadData_falsy env w (by simp [hd, truthy, hne])]
    · obtain ⟨_, _, _, _, _, _, _, hq⟩ := uploadData_run env w d hd hne
      obtain ⟨_, _, _, _, _, _, _, hc⟩ := saveToHistory_cases env d (setIsUploading true w)
      rw [hq]
      rcases hc with hc | ⟨c, hc⟩
      · left
        rw [hc]
        rfl
      · right
        exact ⟨_, by rw [hc]; rfl⟩

theorem handleBarcodeScanned_scannedData (p : String) (w : World ν) :
    (handleBarcodeScanned p w).scannedData = some p := by
  unfold handleBarcodeScanned
  split
  · next h => exact h.symm
  · rfl

theorem handleBarcodeScanned_of_eq (p : String) (w : World ν) (h : w.scannedData = some p) :
    handleBarcodeScanned p w = w := by
  simp [handleBarcodeScanned, h]

theorem runEvents_append (w : World ν) (events : List String) (p : String) :
    runEvents w (events ++ [p]) = handleBarcodeScanned p (runEvents w events) := by
  simp [runEvents, List.foldl_append]

/-- The gallery stub writes neither the stored value nor `scannedData`. -/
theorem pickImageFromGallery_frame (w : World ν) (picked : Option ImagePickerResult) :
    (pickImageFromGallery picked w).qrHistory = w.qrHistory ∧
    (pickImageFromGallery picked w).scannedData = w.scannedData := by
  unfold pickImageFromGallery
  rcases picked with _ | r
  · exact ⟨rfl, rfl⟩
  · by_cases hc : r.canceled = true <;> simp [hc]

/-! ## The claims -/

/-- C1 on the code: with `"ABC123"` pending, an absent key, working storage
and the permission request answering `"denied"`, `saveToHistory` throws at
line 90 before any storage call, the `catch` of lines 101-103 logs
"Error saving to history:" and returns, and `uploadData` shows the alert
"Entry added successfully!" although the stored log is still empty: no entry
with a `null` location, and no entry at all, was appended. -/
theorem uploadData_denied_appends_nothing :
    scannedWorld.scannedData = some "ABC123" ∧
    deniedEnv.requestForegroundPermissionsAsync = .ok "denied" ∧
    deniedEnv.getItemError = none ∧ deniedEnv.setItemError = none ∧
    effectsSince scannedWorld (uploadData deniedEnv scannedWorld) =
      [.setIsUploading true,
       .requestForegroundPermissions,
       .consoleWarn "Location permission not granted",
       .consoleError "Error saving to history:" ⟨"Location permission not granted"⟩,
       .alert "Success" "Entry added successfully!" [⟨"OK", .routerBack⟩],
       .setIsUploading false] ∧
    historyArray (uploadData deniedEnv scannedWorld).qrHistory = [] ∧
    ¬ ∃ e : HistoryEntry Int,
      historyArray (uploadData deniedEnv scannedWorld).qrHistory =
        historyArray scannedWorld.qrHistory ++ [e] := by
  refine ⟨rfl, rfl, rfl, rfl, rfl, rfl, ?_⟩
  rintro ⟨e, he⟩
  have h0 : historyArray (uploadData deniedEnv scannedWorld).qrHistory = [] := rfl
  rw [h0] at he
  simp at he

/-- C2 on the code: with `"ABC123"` pending, permission granted, a position
acquired and the storage write rejecting, `uploadData` shows the success
alert and never the error alert; `scannedData` still holds `"ABC123"` and the
stored value is unchanged. -/
theorem uploadData_write_failure_shows_success :
    scannedWorld.scannedData = some "ABC123" ∧
    writeFailEnv.setItemError = some ⟨"disk full"⟩ ∧
    alertsOf (effectsSince scannedWorld (uploadData writeFailEnv scannedWorld)) = [successAlert] ∧
    errorAlert ∉ alertsOf (effectsSince scannedWorld (uploadData writeFailEnv scannedWorld)) ∧
    (uploadData writeFailEnv scannedWorld).scannedData = some "ABC123" ∧
    (uploadData writeFailEnv scannedWorld).qrHistory = scannedWorld.qrHistory := by
  refine ⟨rfl, rfl, rfl, ?_, rfl, rfl⟩
  have h : alertsOf (effectsSince scannedWorld (uploadData writeFailEnv scannedWorld))
      = [successAlert] := rfl
  rw [h]
  decide

/-- C3: on the happy path (permission `"granted"`, position `(lat, lon)`
acquired, storage read and write succeed) `saveToHistory d` returns normally
and the stored log afterwards is the old log, an absent key counting as the
empty log, followed by the one entry
`{ data: d, timestamp: the clock reading of line 76, location: { lat, lon } }`;
the location of that entry is not null and the log is one longer. -/
theorem saveToHistory_happy_path (env : SaveEnv ν) (d : String) (w : World ν) (lat lon : ν)
    (hperm : env.requestForegroundPermissionsAsync = .ok "granted")
    (hpos : env.getCurrentPositionAsync = .ok ⟨⟨lat, lon⟩⟩)
    (hget : env.getItemError = none) (hset : env.setItemError = none) :
    (saveToHistory env d w).1 = .ok () ∧
    (saveToHistory env d w).2.qrHistory =
      some (historyArray w.qrHistory ++
        [{ data := d, timestamp := env.now, location := some ⟨lat, lon⟩ }]) ∧
    (historyArray (saveToHistory env d w).2.qrHistory).getLast?.map HistoryEntry.location =
      some (some ⟨lat, lon⟩) ∧
    (historyArray (saveToHistory env d w).2.qrHistory).length =
      (historyArray w.qrHistory).length + 1 := by
  have hq : (saveToHistory env d w).2.qrHistory =
      some (historyArray w.qrHistory ++
        [{ data := d, timestamp := env.now, location := some ⟨lat, lon⟩ }]) := by
    rw [saveToHistory_qrHistory]
    simp [saveToHistoryTry, hperm, hpos, hget, hset]
  refine ⟨saveToHistory_fst env d w, hq, ?_, ?_⟩
  · rw [hq]
    simp [historyArray]
  · rw [hq]
    simp [historyArray]

/-- C3 at a concrete input: `"ABC123"` saved at `(48, 2)` into an absent key. -/
theorem saveToHistory_happy_path_witness :
    (saveToHistory happyEnv "ABC123" scannedWorld).1 = .ok () ∧
    (saveToHistory happyEnv "ABC123" scannedWorld).2.qrHistory =
      some (historyArray scannedWorld.qrHistory ++
        [{ data := "ABC123", timestamp := happyEnv.now, location := some ⟨48, 2⟩ }]) ∧
    (historyArray (saveToHistory happyEnv "ABC123" scannedWorld).2.qrHistory).getLast?.map
      HistoryEntry.location = some (some ⟨48, 2⟩) ∧
    (historyArray (saveToHistory happyEnv "ABC123" scannedWorld).2.qrHistory).length =
      (historyArray scannedWorld.qrHistory).length + 1 :=
  saveToHistory_happy_path happyEnv "ABC123" scannedWorld 48 2 rfl rfl rfl rfl

/-- C4: `handleBarcodeScanned p` leaves the whole world unchanged when `p` is
the current `scannedData`, and otherwise sets `scannedData` to `p` and leaves
`isUploading` and the stored log unchanged; so along any sequence of decode
events `scannedData` after event `n` is the payload of event `n`, and an event
equal to the one before it changes nothing. -/
theorem handleBarcodeScanned_spec (w : World ν) (p : String) (events : List String) (n : Nat) :
    (w.scannedData = some p → handleBarcodeScanned p w = w) ∧
    (w.scannedData ≠ some p →
      (handleBarcodeScanned p w).scannedData = some p ∧
      (handleBarcodeScanned p w).isUploading = w.isUploading ∧
      (handleBarcodeScanned p w).qrHistory = w.qrHistory) ∧
    (n < events.length →
      (runEvents w (events.take (n + 1))).scannedData = events[n]?) ∧
    (n + 1 < events.length → events[n + 1]? = events[n]? →
      runEvents w (events.take (n + 2)) = runEvents w (events.take (n + 1))) := by
  refine ⟨?_, ?_, ?_, ?_⟩
  · intro h
    simp [handleBarcodeScanned, h]
  · intro h
    have h2 : ¬ some p = w.scannedData := fun h3 => h h3.symm
    simp [handleBarcodeScanned, h2]
  · intro hn
    rw [List.take_succ, List.getElem?_eq_getElem hn]
    simp only [Option.toList_some]
    rw [runEvents_append, handleBarcodeScanned_scannedData]
  · intro hn heq
    have hn1 : n < events.length := by omega
    rw [List.getElem?_eq_getElem hn, List.getElem?_eq_getElem hn1] at heq
    have heq2 : events[n + 1] = events[n] := Option.some.inj heq
    have e2 : events.take (n + 2) = events.take (n + 1) ++ [events[n + 1]] := by
      rw [List.take_succ, List.getElem?_eq_getElem hn]
      rfl
    have e1 : events.take (n + 1) = events.take n ++ [events[n]] := by
      rw [List.take_succ, List.getElem?_eq_getElem hn1]
      rfl
    rw [e2, runEvents_append, heq2, e1, runEvents_append]
    exact handleBarcodeScanned_of_eq _ _ (handleBarcodeScanned_scannedData _ _)

/-- C4 at a concrete input: the events `"A", "B", "B"` delivered to a screen
holding `"ABC123"`, and the payload `"ABC123"` delivered to that screen. -/
theorem handleBarcodeScanned_spec_witness :
    handleBarcodeScanned "ABC123" scannedWorld = scannedWorld ∧
    (runEvents scannedWorld (["A", "B", "B"].take (1 + 1))).scannedData = some "B" ∧
    runEvents scannedWorld (["A", "B", "B"].take (1 + 2)) =
      runEvents scannedWorld (["A", "B", "B"].take (1 + 1)) :=
  have h := handleBarcodeScanned_spec scannedWorld "ABC123" ["A", "B", "B"] 1
  ⟨h.1 rfl, h.2.2.1 (by decide), h.2.2.2 (by decide) rfl⟩

/-- C5, as stated, fails: the empty payload differs from the `null` held by a
fresh screen, and after `handleBarcodeScanned` the render condition still
selects the camera view. -/
theorem handleBarcodeScanned_empty_payload_scanner :
    freshWorld.scannedData ≠ some "" ∧
    (handleBarcodeScanned "" freshWorld).scannedData = some "" ∧
    render (handleBarcodeScanned "" freshWorld) = View.scanner := by
  decide

/-- C5, amended: after `handleBarcodeScanned` the render condition selects
the result view exactly when the payload is not the empty string; so every
non-empty payload that differs from the current `scannedData` puts the screen
in result mode, and the empty payload leaves it on the camera view. -/
theorem handleBarcodeScanned_result_view (w : World ν) (p : String) :
    render (handleBarcodeScanned p w) = View.result ↔ p ≠ "" := by
  unfold render
  rw [handleBarcodeScanned_scannedData]
  by_cases h : p = "" <;> simp [truthy, h]

/-- C6, as stated, fails: after a run of `uploadData` that stored the entry and
showed the success alert, `scannedData` still holds `"ABC123"`. -/
theorem uploadData_success_keeps_scannedData :
    alertsOf (effectsSince scannedWorld (uploadData happyEnv scannedWorld)) = [successAlert] ∧
    (historyArray (uploadData happyEnv scannedWorld).qrHistory).length = 1 ∧
    (uploadData happyEnv scannedWorld).scannedData = some "ABC123" ∧
    (uploadData happyEnv scannedWorld).scannedData ≠ none := by
  refine ⟨rfl, rfl, rfl, ?_⟩
  have h : (uploadData happyEnv scannedWorld).scannedData = some "ABC123" := rfl
  rw [h]
  simp

/-- C6, amended: for every non-empty `d`, once `uploadData` has completed with
the save reported as success, and no other handler has run during it,
`scannedData` still holds `d`: the run made no call to `setScannedData`. -/
theorem uploadData_keeps_scannedData (env : SaveEnv ν) (w : World ν) (d : String)
    (hd : w.scannedData = some d) (hne : d ≠ "")
    (hsucc : alertsOf (effectsSince w (uploadData env w)) = [successAlert]) :
    (∀ v, Effect.setScannedData v ∉ effectsSince w (uploadData env w)) ∧
    (uploadData env w).scannedData = some d := by
  have _ := hsucc
  obtain ⟨mid, ht, _, _, hsd, hs, _, _⟩ := uploadData_run env w d hd hne
  refine ⟨?_, by rw [hs, hd]⟩
  rw [effectsSince_of_trace w _ _ ht]
  intro v
  simp [hsd]

/-- C6, amended, at a concrete input: the happy-path save of `"ABC123"`, which
stores the entry and shows the success alert. -/
theorem uploadData_keeps_scannedData_witness :
    (∀ v, Effect.setScannedData v ∉ effectsSince scannedWorld (uploadData happyEnv scannedWorld)) ∧
    (uploadData happyEnv scannedWorld).scannedData = some "ABC123" :=
  uploadData_keeps_scannedData happyEnv scannedWorld "ABC123" rfl (by decide) rfl

/-- C7, as stated, fails: when the selection is cancelled,
`pickImageFromGallery` shows no alert at all. -/
theorem pickImageFromGallery_canceled_silent :
    alertsOf (effectsSince freshWorld
      (pickImageFromGallery (some { canceled := true, assets := [] }) freshWorld)) = [] ∧
    notImplementedAlert ∉ alertsOf (effectsSince freshWorld
      (pickImageFromGallery (some { canceled := true, assets := [] }) freshWorld)) := by
  decide

/-- C7, amended: when the picker resolves, `pickImageFromGallery` shows the
"Feature not implemented" alert if an image was selected and no alert if the
selection was cancelled; whatever the picker does, the stored log and
`scannedData` are unchanged. -/
theorem pickImageFromGallery_spec (w : World ν) (result : ImagePickerResult)
    (picked : Option ImagePickerResult) :
    alertsOf (effectsSince w (pickImageFromGallery (some result) w)) =
      (if result.canceled then [] else [notImplementedAlert]) ∧
    (pickImageFromGallery picked w).qrHistory = w.qrHistory ∧
    (pickImageFromGallery picked w).scannedData = w.scannedData := by
  refine ⟨?_, ?_, ?_⟩
  · unfold pickImageFromGallery
    by_cases hc : result.canceled = true
    · rw [effectsSince_of_trace w _ [.launchImageLibrary] (by simp [hc])]
      simp [hc, alertsOf]
    · rw [effectsSince_of_trace w _ [.launchImageLibrary, .alert "Feature not implemented"
        "Decoding QR from gallery is not yet implemented." []] (by simp [hc])]
      simp [hc, alertsOf, notImplementedAlert]
  · exact (pickImageFromGallery_frame w picked).1
  · exact (pickImageFromGallery_frame w picked).2

/-- C8: an application-state change to `"active"` sets `scannedData` to `null`,
so the render condition selects the camera view, and leaves `isUploading` and
the stored log unchanged, whatever the state was; a change to any other value
leaves the whole world unchanged. -/
theorem appStateListener_spec (w : World ν) (nextAppState : String) :
    (nextAppState = "active" →
      (appStateListener nextAppState w).scannedData = none ∧
      render (appStateListener nextAppState w) = View.scanner ∧
      (appStateListener nextAppState w).isUploading = w.isUploading ∧
      (appStateListener nextAppState w).qrHistory = w.qrHistory) ∧
    (nextAppState ≠ "active" → appStateListener nextAppState w = w) := by
  constructor
  · intro h
    simp [appStateListener, h, render, truthy]
  · intro h
    simp [appStateListener, h]

/-- C8 at concrete inputs: `"active"` and `"background"` arriving while
`"ABC123"` is pending over a stored entry. -/
theorem appStateListener_spec_witness :
    ((appStateListener "active" storedWorld).scannedData = none ∧
      render (appStateListener "active" storedWorld) = View.scanner ∧
      (appStateListener "active" storedWorld).isUploading = storedWorld.isUploading ∧
      (appStateListener "active" storedWorld).qrHistory = storedWorld.qrHistory) ∧
    appStateListener "background" storedWorld = storedWorld :=
  ⟨(appStateListener_spec storedWorld "active").1 rfl,
    (appStateListener_spec storedWorld "background").2 (by decide)⟩

/-- C9: whatever operation of the screen runs (`uploadData` under any
outcomes, `handleBarcodeScanned`, the resume reset, "Scan Again",
`pickImageFromGallery`), the stored log afterwards is the old log or the old
log with exactly one entry appended; the old log is a prefix of it and every
old entry is at its old index, unchanged. -/
theorem step_append_only (w : World ν) (op : Op ν) :
    (historyArray (step w op).qrHistory = historyArray w.qrHistory ∨
      ∃ e : HistoryEntry ν,
        historyArray (step w op).qrHistory = historyArray w.qrHistory ++ [e]) ∧
    historyArray w.qrHistory <+: historyArray (step w op).qrHistory ∧
    ∀ i : Nat, i < (historyArray w.qrHistory).length →
      (historyArray (step w op).qrHistory)[i]? = (historyArray w.qrHistory)[i]? := by
  have key : historyArray (step w op).qrHistory = historyArray w.qrHistory ∨
      ∃ e : HistoryEntry ν,
        historyArray (step w op).qrHistory = historyArray w.qrHistory ++ [e] := by
    cases op with
    | uploadData env =>
      rcases uploadData_qrHistory env w with h | ⟨e, h⟩
      · exact Or.inl (by simp [step, h])
      · exact Or.inr ⟨e, by simp [step, h, historyArray]⟩
    | handleBarcodeScanned data =>
      left
      simp only [step, handleBarcodeScanned]
      split <;> simp
    | appStateChange next =>
      left
      simp only [step, appStateListener]
      split <;> simp
    | scanAgain => exact Or.inl rfl
    | pickImageFromGallery picked =>
      left
      simp only [step]
      rw [(pickImageFromGallery_frame w picked).1]
  refine ⟨key, ?_, ?_⟩
  · rcases key with h | ⟨e, h⟩
    · rw [h]
    · rw [h]
      exact ⟨[e], rfl⟩
  · intro i hi
    rcases key with h | ⟨e, h⟩
    · rw [h]
    · rw [h, List.getElem?_append_left hi]

/-- C9 at a concrete input: the happy-path save of `"ABC123"` over a log that
already holds one entry. -/
theorem step_append_only_witness :
    (historyArray (step storedWorld (.uploadData happyEnv)).qrHistory)[0]? =
      (historyArray storedWorld.qrHistory)[0]? :=
  (step_append_only storedWorld (.uploadData happyEnv)).2.2 0 (by decide)

/-- C10: a run of `uploadData` on a non-empty `scannedData` begins by calling
`setIsUploading(true)`, ends by calling `setIsUploading(false)`, does not
touch the flag in between (where the whole of the save and the alert lie), and
leaves the flag false, whatever the permission, position and storage outcomes;
on a `null` or empty `scannedData` it does nothing at all. -/
theorem uploadData_inflight_flag (env : SaveEnv ν) (w : World ν) :
    (truthy w.scannedData = true →
      (∃ mid : List (Effect ν),
        effectsSince w (uploadData env w) =
          Effect.setIsUploading true :: (mid ++ [Effect.setIsUploading false]) ∧
        (∀ b, Effect.setIsUploading b ∉ mid)) ∧
      (uploadData env w).isUploading = false) ∧
    (truthy w.scannedData = false → uploadData env w = w) := by
  refine ⟨?_, uploadData_falsy env w⟩
  intro ht
  rcases hd : w.scannedData with _ | d
  · simp [hd, truthy] at ht
  · have hne : d ≠ "" := by
      rw [hd] at ht
      exact (truthy_some d).1 ht
    obtain ⟨mid, htr, _, hu, _, _, hi, _⟩ := uploadData_run env w d hd hne
    refine ⟨⟨mid ++ [.alert "Success" "Entry added successfully!" [⟨"OK", .routerBack⟩]],
      ?_, ?_⟩, hi⟩
    · rw [effectsSince_of_trace w _ _ htr]
      simp
    · intro b
      simp [hu]

/-- C10 at concrete inputs: a save of `"ABC123"` whose storage write fails, and
a confirmation on a fresh screen. -/
theorem uploadData_inflight_flag_witness :
    ((∃ mid : List (Effect Int),
        effectsSince scannedWorld (uploadData writeFailEnv scannedWorld) =
          Effect.setIsUploading true :: (mid ++ [Effect.setIsUploading false]) ∧
        (∀ b, Effect.setIsUploading b ∉ mid)) ∧
      (uploadData writeFailEnv scannedWorld).isUploading = false) ∧
    uploadData writeFailEnv freshWorld = freshWorld :=
  ⟨(uploadData_inflight_flag writeFailEnv scannedWorld).1 rfl,
    (uploadData_inflight_flag writeFailEnv freshWorld).2 rfl⟩

end QRScanner
